import Mathlib

/-!
Verification development for the Anypoint consumption analyzer
(`consumption-analyzer.js`).  The pure estimation pipeline of the program is
shallowly embedded below: JavaScript numbers occurring in monitoring payloads
are modelled as exact rationals (JSON cannot carry `NaN`/`Infinity`), while
values produced by arithmetic inside the estimator are modelled by `JSNum`,
which adds the IEEE special values that division by zero can produce.
`Math.round` is modelled as `fun q => ⌊q + 1/2⌋`, which agrees with the
JavaScript semantics on all finite inputs.
-/

/-- Model of `String.prototype.toLowerCase` on the character list of a name
(the names inspected by the estimator are ASCII). -/
def toLowerCase (s : List Char) : List Char := s.map Char.toLower

/-- Model of `String.prototype.includes`: `hasSub hay sub` is true when `sub`
occurs contiguously inside `hay`. -/
def hasSub : List Char → List Char → Bool
  | [], sub => sub.isEmpty
  | c :: t, sub => sub.isPrefixOf (c :: t) || hasSub t sub

/-- Model of `Math.round` on an exact rational: round half toward positive
infinity (`⌊q + 1/2⌋`), as JavaScript does on finite inputs. -/
def jsRoundQ (q : ℚ) : ℤ := ⌊q + 1 / 2⌋

/-- Model of `Math.max` on two integers. -/
def jsMax (a b : ℤ) : ℤ := if a < b then b else a

/-- Model of `Math.min` on two integers. -/
def jsMin (a b : ℤ) : ℤ := if a < b then a else b

/-- Confidence tiers attached to estimates: `'high' | 'medium' | 'low' | 'none'`. -/
inductive Confidence where
  | high
  | medium
  | low
  | none
deriving DecidableEq, Repr

/-- Result shape of the flow estimators (`estimatedFlows`, `confidence`,
`source`).  `actualAnalysis` models the optional `details.actualAnalysis`
flag: `some true` on the structured-extraction path, `some false` on the JAR
size heuristic, `none` when the metadata estimator produced the result (its
objects carry no `details` field).  The display-only `size` string
(`toFixed(2) + ' MB'`) is not modelled. -/
structure FlowEstimate where
  estimatedFlows : ℤ
  confidence : Confidence
  source : String
  actualAnalysis : Option Bool
deriving DecidableEq, Repr

/-- The `workers` object of an application-details record:
`workers.amount` and (when the `type` object with a numeric weight is
present) `workers.type.weight`. -/
structure WorkersInfo where
  amount : ℕ
  typeWeight : Option ℚ
deriving DecidableEq, Repr

/-- The fields of the raw application-details record that
`estimateBasedOnAppDetails` inspects.  `fileName`/`domain` are `none` when
the corresponding property is absent or empty (falsy in JavaScript). -/
structure AppDetails where
  fileName : Option (List Char)
  domain : Option (List Char)
  workers : Option WorkersInfo
deriving DecidableEq, Repr

/-- Base estimate and source chosen from the artifact file name
(lines 681–693 of `consumption-analyzer.js`); the argument is the
already-lower-cased name. -/
def fileBase (fn : List Char) : ℤ × String :=
  if hasSub fn ("eapi".toList) || hasSub fn ("experience-api".toList) then
    (5, "EAPI filename pattern")
  else if hasSub fn ("papi".toList) || hasSub fn ("process-api".toList) then
    (7, "PAPI filename pattern")
  else if hasSub fn ("sapi".toList) || hasSub fn ("system-api".toList) then
    (3, "SAPI filename pattern")
  else
    (2, "Application metadata")

/-- Base estimate and source chosen from the application domain
(lines 710–719); the argument is the already-lower-cased domain. -/
def domainBase (dm : List Char) : ℤ × String :=
  if hasSub dm ("eapi".toList) || hasSub dm ("experience".toList) then
    (5, "EAPI domain pattern")
  else if hasSub dm ("papi".toList) || hasSub dm ("process".toList) then
    (7, "PAPI domain pattern")
  else if hasSub dm ("sapi".toList) || hasSub dm ("system".toList) then
    (3, "SAPI domain pattern")
  else
    (2, "Application metadata")

/-- Integration-pattern bonus applied to a base estimate and source
(lines 696–705, and identically lines 722–731): an `else if` chain, so at
most one of the three bonuses fires. -/
def addIntegrationPattern (s : List Char) (acc : ℤ × String) : ℤ × String :=
  if hasSub s ("salesforce".toList) || hasSub s ("sfdc".toList) then
    (acc.1 + 2, acc.2 ++ " + Salesforce pattern")
  else if hasSub s ("onbase".toList) || hasSub s ("database".toList) then
    (acc.1 + 1, acc.2 ++ " + Database pattern")
  else if hasSub s ("splunk".toList) then
    (acc.1 + 1, acc.2 ++ " + Splunk pattern")
  else
    acc

/-- Worker count / size adjustments (lines 735–747). -/
def workerAdjust (w : Option WorkersInfo) (acc : ℤ × String) : ℤ × String :=
  match w with
  | Option.none => acc
  | some wi =>
    let acc1 :=
      if 1 < wi.amount then
        (acc.1 + jsMin 3 ((wi.amount : ℤ) - 1), acc.2 ++ " + Multiple workers")
      else acc
    match wi.typeWeight with
    | some wt =>
      if (1 : ℚ) / 10 < wt then
        (acc1.1 + jsMin 3 (jsRoundQ (wt * 10)), acc1.2 ++ " + Larger worker size")
      else acc1
    | Option.none => acc1

/-- Embedding of `estimateBasedOnAppDetails` (lines 662–757): metadata-based
flow estimation.  The file name is preferred over the domain; worker
adjustments are applied afterwards and the result is clamped to `[1, 20]`. -/
def estimateBasedOnAppDetails (appDetails : Option AppDetails) : FlowEstimate :=
  match appDetails with
  | Option.none =>
    { estimatedFlows := 2
      confidence := Confidence.low
      source := "Default estimate (no metadata)"
      actualAnalysis := Option.none }
  | some d =>
    let base :=
      match d.fileName with
      | some fn => addIntegrationPattern (toLowerCase fn) (fileBase (toLowerCase fn))
      | Option.none =>
        match d.domain with
        | some dm => addIntegrationPattern (toLowerCase dm) (domainBase (toLowerCase dm))
        | Option.none => ((2 : ℤ), "Application metadata")
    let adjusted := workerAdjust d.workers base
    { estimatedFlows := jsMax 1 (jsMin 20 adjusted.1)
      confidence := Confidence.low
      source := adjusted.2
      actualAnalysis := Option.none }

/-- Model of the downloaded artifact as `analyzeJarForFlows` observes it.
`sizeBytes` is `fs.statSync(jarPath).size`; `statOk = false` models the
`statSync` call throwing (the only statement of the outer `try` that can
throw), in which case the outer `catch` delegates to metadata estimation;
`extracted = some n` models the shell-based extraction pipeline having set
`extractedFlows` to the (natural-number) sum of flow, sub-flow and other
flow-element counts, and `extracted = none` models every way that pipeline
can come up empty (no Mule configuration files found, or any extraction
error caught by the inner `catch`). -/
structure JarFile where
  sizeBytes : ℕ
  statOk : Bool
  extracted : Option ℕ
deriving DecidableEq, Repr

/-- Model of `stats.size / (1024 * 1024)` (line 540). -/
def jarSizeInMB (j : JarFile) : ℚ := (j.sizeBytes : ℚ) / (1024 * 1024)

/-- Size heuristic of line 643:
`Math.max(1, Math.min(20, Math.round(fileSizeInMB / 0.5)))`. -/
def sizeHeuristicFlows (j : JarFile) : ℤ :=
  jsMax 1 (jsMin 20 (jsRoundQ (jarSizeInMB j / (1 / 2))))

/-- Embedding of `analyzeJarForFlows` (lines 531–660).  `jar = none` models
`!jarPath || !fs.existsSync(jarPath)`, which delegates to the metadata
estimator; the function is total, modelling that the JavaScript function
never raises to its caller. -/
def analyzeJarForFlows (jar : Option JarFile) (appDetails : Option AppDetails) :
    FlowEstimate :=
  match jar with
  | Option.none => estimateBasedOnAppDetails appDetails
  | some j =>
    if j.statOk then
      match j.extracted with
      | some n =>
        { estimatedFlows := (n : ℤ)
          confidence := Confidence.high
          source := "XML analysis"
          actualAnalysis := some true }
      | Option.none =>
        { estimatedFlows := sizeHeuristicFlows j
          confidence := Confidence.low
          source := "JAR size heuristic"
          actualAnalysis := some false }
    else estimateBasedOnAppDetails appDetails

example :
    estimateBasedOnAppDetails
      (some ⟨some ("customer-eapi-salesforce-v1.jar".toList), Option.none, Option.none⟩) =
      ⟨7, Confidence.low, "EAPI filename pattern + Salesforce pattern", Option.none⟩ := by
  decide

example :
    estimateBasedOnAppDetails
      (some ⟨Option.none, some ("order-papi-database".toList), some ⟨1, some 0⟩⟩) =
      ⟨8, Confidence.low, "PAPI domain pattern + Database pattern", Option.none⟩ := by
  have hbase :
      addIntegrationPattern (toLowerCase ("order-papi-database".toList))
        (domainBase (toLowerCase ("order-papi-database".toList))) =
        (8, "PAPI domain pattern + Database pattern") := by decide
  simp only [estimateBasedOnAppDetails, hbase, workerAdjust]
  norm_num [jsMax, jsMin]

example :
    analyzeJarForFlows (some ⟨2411725, true, Option.none⟩) Option.none =
      ⟨5, Confidence.low, "JAR size heuristic", some false⟩ := by
  simp only [analyzeJarForFlows, if_true]
  norm_num [sizeHeuristicFlows, jarSizeInMB, jsRoundQ, jsMax, jsMin]

/-- JavaScript number values as they arise inside the message-volume
estimator: an exact rational, or one of the IEEE special values that
division by zero produces. -/
inductive JSNum where
  | num (q : ℚ)
  | inf
  | ninf
  | nan
deriving DecidableEq, Repr

/-- JavaScript division of two finite numbers (`a / b`), including the
special values produced when `b = 0`. -/
def jsDiv (a b : ℚ) : JSNum :=
  if b = 0 then
    if a = 0 then JSNum.nan else if 0 < a then JSNum.inf else JSNum.ninf
  else JSNum.num (a / b)

/-- JavaScript multiplication of a number by a finite constant. -/
def jsMul (x : JSNum) (c : ℚ) : JSNum :=
  match x with
  | JSNum.num q => JSNum.num (q * c)
  | JSNum.inf => if 0 < c then JSNum.inf else if c < 0 then JSNum.ninf else JSNum.nan
  | JSNum.ninf => if 0 < c then JSNum.ninf else if c < 0 then JSNum.inf else JSNum.nan
  | JSNum.nan => JSNum.nan

/-- JavaScript `Math.round`: rounds finite values half toward positive
infinity and leaves the special values fixed. -/
def jsRound (x : JSNum) : JSNum :=
  match x with
  | JSNum.num q => JSNum.num ((jsRoundQ q : ℤ) : ℚ)
  | JSNum.inf => JSNum.inf
  | JSNum.ninf => JSNum.ninf
  | JSNum.nan => JSNum.nan

/-- Whether a JavaScript number is finite. -/
def JSNum.isFinite : JSNum → Bool
  | JSNum.num _ => true
  | _ => false

/-- Whether a JavaScript number is a finite, non-negative integer. -/
def isFinNonnegInt (x : JSNum) : Bool :=
  match x with
  | JSNum.num q => decide (0 ≤ q) && decide (q.den = 1)
  | _ => false

/-- One entry of the `flowMetrics` array: `messageCount = some c` models
`flow.messageCount` being present with a numeric `count` field `c` (payloads
come from JSON, so the value is finite). -/
structure FlowMetric where
  messageCount : Option ℚ
deriving DecidableEq, Repr

/-- The monitoring-data object assembled by `getApplicationMonitoringData`
as `estimateMessageVolume` observes it.  `flowMetrics = some l` models
`monitoringData.flowMetrics` being present and an array; `messageCount =
some c` models `monitoringData.messageData` being present with a numeric
`messageCount.count` equal to `c`; `cpuAverage = some a` models
`monitoringData.resourceData` being present with a numeric `cpu.average`
equal to `a`; `periodDays` is `period.days` (`CONFIG.analyzeDays`). -/
structure MonitoringData where
  flowMetrics : Option (List FlowMetric)
  messageCount : Option ℚ
  cpuAverage : Option ℚ
  periodDays : ℚ
deriving DecidableEq, Repr

/-- The `totalMessages` value accumulated by the `forEach` over the flow metrics
(lines 778–786): the sum of the numeric per-flow counts. -/
def flowTotal (l : List FlowMetric) : ℚ :=
  l.foldl (fun t f => match f.messageCount with | some c => t + c | Option.none => t) 0

/-- The `flowsWithData` counter accumulated by the same loop: how many flows carried a
numeric count. -/
def flowsWithData (l : List FlowMetric) : ℕ :=
  l.foldl (fun n f => match f.messageCount with | some _ => n + 1 | Option.none => n) 0

/-- Result shape of `estimateMessageVolume`. -/
structure MessageEstimate where
  estimatedDailyMessages : JSNum
  estimatedMonthlyMessages : JSNum
  confidence : Confidence
  source : String
deriving DecidableEq, Repr

/-- State of `(estimatedDailyMessages, confidence, source)` after the
flow-metrics block (lines 776–794). -/
def volAfterFlow (md : MonitoringData) : JSNum × Confidence × String :=
  match md.flowMetrics with
  | some l =>
    if 0 < flowsWithData l then
      (jsDiv (flowTotal l) md.periodDays, Confidence.high, "Flow-level message metrics")
    else (JSNum.num 0, Confidence.none, "No message data available")
  | Option.none => (JSNum.num 0, Confidence.none, "No message data available")

/-- State after the application-level block (lines 797–805), which fires
only while the running daily estimate is still `0`. -/
def volAfterApp (md : MonitoringData) (s : JSNum × Confidence × String) :
    JSNum × Confidence × String :=
  if s.1 = JSNum.num 0 then
    match md.messageCount with
    | some c => (jsDiv c md.periodDays, Confidence.medium, "Application-level message metrics")
    | Option.none => s
  else s

/-- State after the CPU-heuristic block (lines 808–820), which also fires
only while the running daily estimate is still `0`. -/
def volAfterCpu (md : MonitoringData) (s : JSNum × Confidence × String) :
    JSNum × Confidence × String :=
  if s.1 = JSNum.num 0 then
    match md.cpuAverage with
    | some a => (JSNum.num (a * 100), Confidence.low, "CPU usage heuristic")
    | Option.none => s
  else s

/-- The unrounded daily estimate (with confidence and source) that the three
fallback blocks leave in the local variables before the final rounding. -/
def rawVolume (md : MonitoringData) : JSNum × Confidence × String :=
  volAfterCpu md (volAfterApp md (volAfterFlow md))

/-- Embedding of `estimateMessageVolume` (lines 762–831).  The argument is
`none` when no monitoring data object is available at all.  The returned
monthly value is `Math.round(estimatedDailyMessages * 30)` computed from the
unrounded daily value (line 823), and the returned daily value is rounded
separately (line 826). -/
def estimateMessageVolume (omd : Option MonitoringData) : MessageEstimate :=
  match omd with
  | Option.none =>
    { estimatedDailyMessages := JSNum.num 0
      estimatedMonthlyMessages := JSNum.num 0
      confidence := Confidence.none
      source := "No monitoring data available" }
  | some md =>
    let r := rawVolume md
    { estimatedDailyMessages := jsRound r.1
      estimatedMonthlyMessages := jsRound (jsMul r.1 30)
      confidence := r.2.1
      source := r.2.2 }

/-- The unrounded daily estimate underlying a call of
`estimateMessageVolume` (`0` when no monitoring data object exists). -/
def rawDailyOf (omd : Option MonitoringData) : JSNum :=
  match omd with
  | Option.none => JSNum.num 0
  | some md => (rawVolume md).1

/-- Tier-structured restatement of the message-volume estimator following
the wording of claim C2 (spec §4.3): tier 1 fires when the flow-metrics
array is present and at least one flow carries a numeric count; tier 2 only
while the daily estimate is still zero and a numeric application-level count
exists; tier 3 only while it is still zero and a numeric CPU average exists;
absent input or no fired tier leaves the all-zero `'none'` result. -/
def messageVolumeClaimed (omd : Option MonitoringData) : MessageEstimate :=
  match omd with
  | Option.none =>
    { estimatedDailyMessages := JSNum.num 0
      estimatedMonthlyMessages := JSNum.num 0
      confidence := Confidence.none
      source := "No monitoring data available" }
  | some md =>
    let tier1 : Option (JSNum × Confidence × String) :=
      match md.flowMetrics with
      | some l =>
        if 0 < flowsWithData l then
          some (jsDiv (flowTotal l) md.periodDays, Confidence.high,
            "Flow-level message metrics")
        else Option.none
      | Option.none => Option.none
    let s1 := tier1.getD (JSNum.num 0, Confidence.none, "No message data available")
    let s2 :=
      if s1.1 = JSNum.num 0 then
        match md.messageCount with
        | some c =>
          (jsDiv c md.periodDays, Confidence.medium, "Application-level message metrics")
        | Option.none => s1
      else s1
    let s3 :=
      if s2.1 = JSNum.num 0 then
        match md.cpuAverage with
        | some a => (JSNum.num (a * 100), Confidence.low, "CPU usage heuristic")
        | Option.none => s2
      else s2
    { estimatedDailyMessages := jsRound s3.1
      estimatedMonthlyMessages := jsRound (jsMul s3.1 30)
      confidence := s3.2.1
      source := s3.2.2 }

/-- JavaScript addition extended to the special values (used by the summary
accumulations). -/
def jsAdd (x y : JSNum) : JSNum :=
  match x, y with
  | JSNum.num a, JSNum.num b => JSNum.num (a + b)
  | JSNum.nan, _ => JSNum.nan
  | _, JSNum.nan => JSNum.nan
  | JSNum.inf, JSNum.ninf => JSNum.nan
  | JSNum.ninf, JSNum.inf => JSNum.nan
  | JSNum.inf, _ => JSNum.inf
  | _, JSNum.inf => JSNum.inf
  | JSNum.ninf, _ => JSNum.ninf
  | _, JSNum.ninf => JSNum.ninf

/-- Model of the `x || 0` coercion applied to a message total: of the
numeric values only `0`, `-0` and `NaN` are falsy. -/
def jsOr0 (x : JSNum) : JSNum :=
  if x = JSNum.nan then JSNum.num 0 else x

/-- One application of the built inventory, carrying its two estimates
(`appData.flowAnalysis` / `appData.messageAnalysis`). -/
structure AppRecord where
  flowAnalysis : FlowEstimate
  messageAnalysis : MessageEstimate
deriving DecidableEq, Repr

/-- One environment of the built inventory. -/
structure EnvRecord where
  isProduction : Bool
  applications : List AppRecord
deriving DecidableEq, Repr

/-- One business group of the built inventory. -/
structure GroupRecord where
  environments : List EnvRecord
deriving DecidableEq, Repr

/-- The incrementally maintained `inventory.summary` counters. -/
structure SummaryCounters where
  totalApplications : ℕ
  totalEstimatedFlows : ℤ
  totalEstimatedMonthlyMessages : JSNum
deriving DecidableEq, Repr

/-- The per-application summary update of `analyzeBillableConsumption`
(lines 1110–1113): one increment of the running totals. -/
def summaryStep (s : SummaryCounters) (a : AppRecord) : SummaryCounters :=
  { totalApplications := s.totalApplications + 1
    totalEstimatedFlows := s.totalEstimatedFlows + a.flowAnalysis.estimatedFlows
    totalEstimatedMonthlyMessages :=
      jsAdd s.totalEstimatedMonthlyMessages
        (jsOr0 a.messageAnalysis.estimatedMonthlyMessages) }

/-- The summary updates performed while one environment is processed. -/
def envSummaryFold (s : SummaryCounters) (e : EnvRecord) : SummaryCounters :=
  e.applications.foldl summaryStep s

/-- The summary updates performed while one business group is processed. -/
def groupSummaryFold (s : SummaryCounters) (g : GroupRecord) : SummaryCounters :=
  g.environments.foldl envSummaryFold s

/-- The `inventory.summary` value at the end of `analyzeBillableConsumption`:
the nested loops update the counters once per processed application,
starting from all-zero. -/
def runSummary (groups : List GroupRecord) : SummaryCounters :=
  groups.foldl groupSummaryFold ⟨0, 0, JSNum.num 0⟩

/-- Per-application accumulation of `generateOrganizationSummaryReport`
(lines 979–993), restricted to the `Total` column:
`totalFlows += flows; totalMonthlyMessages += messages`. -/
def reportAppStep (t : ℕ × ℤ × JSNum) (a : AppRecord) : ℕ × ℤ × JSNum :=
  (t.1, t.2.1 + a.flowAnalysis.estimatedFlows,
    jsAdd t.2.2 (jsOr0 a.messageAnalysis.estimatedMonthlyMessages))

/-- Per-environment accumulation of the report (lines 966–994): the
application count is increased by `env.applications.length` before the inner
loop runs. -/
def reportEnvStep (t : ℕ × ℤ × JSNum) (e : EnvRecord) : ℕ × ℤ × JSNum :=
  e.applications.foldl reportAppStep (t.1 + e.applications.length, t.2.1, t.2.2)

/-- Per-business-group accumulation of the report. -/
def reportGroupStep (t : ℕ × ℤ × JSNum) (g : GroupRecord) : ℕ × ℤ × JSNum :=
  g.environments.foldl reportEnvStep t

/-- The `Total` column of the organization summary report
(`generateOrganizationSummaryReport`, lines 947–1005): a fresh recomputation
of `(totalApps, totalFlows, totalMonthlyMessages)` by re-traversing the
inventory tree. -/
def orgTotals (groups : List GroupRecord) : ℕ × ℤ × JSNum :=
  groups.foldl reportGroupStep (0, 0, JSNum.num 0)

/-- The triple of counters held by a summary value. -/
def summaryTriple (s : SummaryCounters) : ℕ × ℤ × JSNum :=
  (s.totalApplications, s.totalEstimatedFlows, s.totalEstimatedMonthlyMessages)

/-- A node of the business-group hierarchy returned by the accounts API:
`id`, `name`, an optional `parentId`, and the `subOrganizations` children. -/
inductive BGroup where
  | mk (id : String) (name : String) (parentId : Option String)
      (subOrganizations : List BGroup)

/-- One entry of the flattened business-group list. -/
structure FlatGroup where
  id : String
  name : String
  parentId : Option String
deriving DecidableEq, Repr

mutual

/-- Embedding of `flattenBusinessGroups` (lines 127–141): push the group
itself, then recursively flatten each sub-organization in order. -/
def flattenBusinessGroups : BGroup → List FlatGroup
  | BGroup.mk i n p subs => { id := i, name := n, parentId := p } :: flattenGroupList subs

/-- The loop of line 135: concatenate the flattenings of the sub-groups. -/
def flattenGroupList : List BGroup → List FlatGroup
  | [] => []
  | g :: gs => flattenBusinessGroups g ++ flattenGroupList gs

end

/-- Any value clamped by `Math.max(1, Math.min(20, x))` lies in `[1, 20]`. -/
theorem clamp_one_twenty (x : ℤ) : 1 ≤ jsMax 1 (jsMin 20 x) ∧ jsMax 1 (jsMin 20 x) ≤ 20 := by
  simp only [jsMax, jsMin]
  split_ifs <;> omega

/-- C8: flattening a hierarchy consisting of one root with two child
business groups (each child's stored `parentId` referencing the root, as the
hierarchy endpoint delivers it) yields exactly three entries in pre-order —
the root first — and each child entry's `parentId` points at the root's id. -/
theorem flattenBusinessGroups_root_two_children
    (rid rn cid1 cn1 cid2 cn2 : String) (rp : Option String) :
    flattenBusinessGroups
      (BGroup.mk rid rn rp
        [BGroup.mk cid1 cn1 (some rid) [], BGroup.mk cid2 cn2 (some rid) []]) =
      [{ id := rid, name := rn, parentId := rp },
       { id := cid1, name := cn1, parentId := some rid },
       { id := cid2, name := cn2, parentId := some rid }] := by
  simp [flattenBusinessGroups, flattenGroupList]

/-- C4: whenever the artifact is present and readable but structured
extraction produced no result, `analyzeJarForFlows` returns exactly the size
heuristic `clamp(round(sizeInMB / 0.5), 1, 20)` with confidence `low` and
source `JAR size heuristic` — it never falls through to metadata estimation
while the artifact is present; in particular an artifact of 2411725 bytes
(2.3 MB) with no structured configuration yields estimate 5. -/
theorem jar_size_heuristic_when_no_extraction :
    (∀ (j : JarFile) (app : Option AppDetails), j.statOk = true → j.extracted = Option.none →
      analyzeJarForFlows (some j) app =
        { estimatedFlows := jsMax 1 (jsMin 20 (jsRoundQ (jarSizeInMB j / (1 / 2))))
          confidence := Confidence.low
          source := "JAR size heuristic"
          actualAnalysis := some false }) ∧
    (∀ app : Option AppDetails,
      analyzeJarForFlows (some ⟨2411725, true, Option.none⟩) app =
        { estimatedFlows := 5
          confidence := Confidence.low
          source := "JAR size heuristic"
          actualAnalysis := some false }) := by
  constructor
  · intro j app hstat hex
    simp [analyzeJarForFlows, hstat, hex, sizeHeuristicFlows]
  · intro app
    have h5 : sizeHeuristicFlows ⟨2411725, true, Option.none⟩ = 5 := by
      norm_num [sizeHeuristicFlows, jarSizeInMB, jsRoundQ, jsMax, jsMin]
    simp [analyzeJarForFlows, h5]

/-- Witness for C4: the size-heuristic branch evaluated at the concrete
2.3 MB artifact. -/
theorem jar_size_heuristic_check :
    analyzeJarForFlows (some ⟨2411725, true, Option.none⟩) Option.none =
      { estimatedFlows := jsMax 1 (jsMin 20
          (jsRoundQ (jarSizeInMB ⟨2411725, true, Option.none⟩ / (1 / 2))))
        confidence := Confidence.low
        source := "JAR size heuristic"
        actualAnalysis := some false } :=
  jar_size_heuristic_when_no_extraction.1 ⟨2411725, true, Option.none⟩ Option.none rfl rfl

/-- C9: `analyzeJarForFlows` is a total function (the JavaScript original
never raises to its caller); with no artifact it returns the metadata
estimate unchanged, an internal failure of the artifact analysis (the `stat`
call throwing) degrades to metadata estimation, and an extraction failure
degrades to the size heuristic. -/
theorem analyzeJarForFlows_fallback_behavior :
    (∀ app : Option AppDetails,
      analyzeJarForFlows Option.none app = estimateBasedOnAppDetails app) ∧
    (∀ (j : JarFile) (app : Option AppDetails), j.statOk = false →
      analyzeJarForFlows (some j) app = estimateBasedOnAppDetails app) ∧
    (∀ (j : JarFile) (app : Option AppDetails), j.statOk = true → j.extracted = Option.none →
      analyzeJarForFlows (some j) app =
        { estimatedFlows := sizeHeuristicFlows j
          confidence := Confidence.low
          source := "JAR size heuristic"
          actualAnalysis := some false }) := by
  refine ⟨fun app => rfl, ?_, ?_⟩
  · intro j app h
    simp [analyzeJarForFlows, h]
  · intro j app h he
    simp [analyzeJarForFlows, h, he]

/-- Witness for C9: the delegation and degradation branches evaluated at
concrete artifacts. -/
theorem analyzeJarForFlows_fallback_check :
    analyzeJarForFlows (some ⟨100, false, Option.none⟩) Option.none =
      estimateBasedOnAppDetails Option.none ∧
    analyzeJarForFlows (some ⟨100, true, Option.none⟩) Option.none =
      { estimatedFlows := sizeHeuristicFlows ⟨100, true, Option.none⟩
        confidence := Confidence.low
        source := "JAR size heuristic"
        actualAnalysis := some false } :=
  ⟨analyzeJarForFlows_fallback_behavior.2.1 ⟨100, false, Option.none⟩ Option.none rfl,
   analyzeJarForFlows_fallback_behavior.2.2 ⟨100, true, Option.none⟩ Option.none rfl rfl⟩

/-- C5: every heuristically produced flow estimate (metadata estimation or
the JAR size heuristic) lies in `[1, 20]`, while a structured-extraction
result is exactly the extracted count and hence only bounded below by 0. -/
theorem flow_estimate_bounds :
    (∀ app : Option AppDetails,
      1 ≤ (estimateBasedOnAppDetails app).estimatedFlows ∧
        (estimateBasedOnAppDetails app).estimatedFlows ≤ 20) ∧
    (∀ (j : JarFile) (app : Option AppDetails), j.statOk = true → j.extracted = Option.none →
      1 ≤ (analyzeJarForFlows (some j) app).estimatedFlows ∧
        (analyzeJarForFlows (some j) app).estimatedFlows ≤ 20) ∧
    (∀ (j : JarFile) (app : Option AppDetails) (n : ℕ), j.statOk = true →
      j.extracted = some n →
      (analyzeJarForFlows (some j) app).estimatedFlows = (n : ℤ) ∧
        0 ≤ (analyzeJarForFlows (some j) app).estimatedFlows) := by
  refine ⟨?_, ?_, ?_⟩
  · intro app
    cases app with
    | none => exact ⟨by norm_num [estimateBasedOnAppDetails], by norm_num [estimateBasedOnAppDetails]⟩
    | some d =>
      simp only [estimateBasedOnAppDetails]
      exact clamp_one_twenty _
  · intro j app hstat hex
    simp only [analyzeJarForFlows, hstat, hex, if_true, sizeHeuristicFlows]
    exact clamp_one_twenty _
  · intro j app n hstat hex
    have hv : (analyzeJarForFlows (some j) app).estimatedFlows = (n : ℤ) := by
      simp [analyzeJarForFlows, hstat, hex]
    exact ⟨hv, hv ▸ Int.ofNat_nonneg n⟩

/-- Witness for C5: the bounds evaluated at a concrete artifact and a
concrete extraction result. -/
theorem flow_estimate_bounds_check :
    (1 ≤ (analyzeJarForFlows (some ⟨2411725, true, Option.none⟩) Option.none).estimatedFlows ∧
      (analyzeJarForFlows (some ⟨2411725, true, Option.none⟩) Option.none).estimatedFlows ≤ 20) ∧
    ((analyzeJarForFlows (some ⟨2411725, true, some 31⟩) Option.none).estimatedFlows = (31 : ℤ) ∧
      0 ≤ (analyzeJarForFlows (some ⟨2411725, true, some 31⟩) Option.none).estimatedFlows) :=
  ⟨flow_estimate_bounds.2.1 ⟨2411725, true, Option.none⟩ Option.none rfl rfl,
   flow_estimate_bounds.2.2 ⟨2411725, true, some 31⟩ Option.none 31 rfl rfl⟩

/-- C6: flow-estimate confidence is `high` exactly when the result came from
structured extraction of a present, readable artifact; every heuristic or
default path — the size heuristic and all metadata-based paths including the
no-metadata default — returns confidence `low`. -/
theorem flow_confidence_classification :
    (∀ app : Option AppDetails, (estimateBasedOnAppDetails app).confidence = Confidence.low) ∧
    (∀ (ojar : Option JarFile) (app : Option AppDetails),
      (analyzeJarForFlows ojar app).confidence = Confidence.high ∨
        (analyzeJarForFlows ojar app).confidence = Confidence.low) ∧
    (∀ (ojar : Option JarFile) (app : Option AppDetails),
      (analyzeJarForFlows ojar app).confidence = Confidence.high ↔
        ∃ (j : JarFile) (n : ℕ), ojar = some j ∧ j.statOk = true ∧ j.extracted = some n) := by
  have hmeta : ∀ app : Option AppDetails,
      (estimateBasedOnAppDetails app).confidence = Confidence.low := by
    intro app
    cases app <;> rfl
  refine ⟨hmeta, ?_, ?_⟩
  · intro ojar app
    cases ojar with
    | none => exact Or.inr (hmeta app)
    | some j =>
      rcases j with ⟨sb, st, ex⟩
      cases st with
      | false => exact Or.inr (by simpa [analyzeJarForFlows] using hmeta app)
      | true =>
        cases ex with
        | none => exact Or.inr rfl
        | some n => exact Or.inl rfl
  · intro ojar app
    cases ojar with
    | none =>
      have h : (analyzeJarForFlows Option.none app).confidence = Confidence.low := hmeta app
      simp [h]
    | some j =>
      rcases j with ⟨sb, st, ex⟩
      cases st with
      | false =>
        simp only [analyzeJarForFlows, if_false, Bool.false_eq_true, hmeta app]
        constructor
        · intro h
          exact absurd h (by simp [hmeta app])
        · rintro ⟨j', n, hj, hst, hex⟩
          cases hj
          exact absurd hst (by simp)
      | true =>
        cases ex with
        | none =>
          constructor
          · intro h
            exact absurd h (by simp [analyzeJarForFlows])
          · rintro ⟨j', n, hj, hst, hex⟩
            cases hj
            simp at hex
        | some m =>
          constructor
          · intro _
            exact ⟨⟨sb, true, some m⟩, m, rfl, rfl, rfl⟩
          · intro _
            rfl

/-- Witness for C6: the classification evaluated on a structured-extraction
result and a heuristic result. -/
theorem flow_confidence_classification_check :
    (analyzeJarForFlows (some ⟨7, true, some 4⟩) Option.none).confidence = Confidence.high ∧
    ((analyzeJarForFlows (some ⟨7, true, Option.none⟩) Option.none).confidence = Confidence.high ∨
      (analyzeJarForFlows (some ⟨7, true, Option.none⟩) Option.none).confidence = Confidence.low) :=
  ⟨(flow_confidence_classification.2.2 (some ⟨7, true, some 4⟩) Option.none).mpr
      ⟨⟨7, true, some 4⟩, 4, rfl, rfl, rfl⟩,
    flow_confidence_classification.2.1 (some ⟨7, true, Option.none⟩) Option.none⟩

/-- Monitoring payload with a single flow that reports 15 messages over a
30-day period: the unrounded daily estimate is 1/2. -/
def mdHalf : MonitoringData :=
  { flowMetrics := some [{ messageCount := some 15 }]
    messageCount := Option.none
    cpuAverage := Option.none
    periodDays := 30 }

/-- A non-zero running daily estimate disables the application-level tier. -/
theorem volAfterApp_of_ne_zero (md : MonitoringData) (s : JSNum × Confidence × String)
    (h : s.1 ≠ JSNum.num 0) : volAfterApp md s = s := by
  simp [volAfterApp, h]

/-- A non-zero running daily estimate disables the CPU tier. -/
theorem volAfterCpu_of_ne_zero (md : MonitoringData) (s : JSNum × Confidence × String)
    (h : s.1 ≠ JSNum.num 0) : volAfterCpu md s = s := by
  simp [volAfterCpu, h]

/-- Counterexample to C1 as stated: on `mdHalf` the returned daily value is
`round(1/2) = 1` and the returned monthly value is `round((1/2)·30) = 15`,
but `round(returnedDaily · 30) = 30 ≠ 15` — the monthly field is rounded
from the unrounded daily value, not from the rounded one. -/
theorem monthly_not_round_of_rounded_daily :
    (estimateMessageVolume (some mdHalf)).estimatedDailyMessages = JSNum.num 1 ∧
    (estimateMessageVolume (some mdHalf)).estimatedMonthlyMessages = JSNum.num 15 ∧
    (estimateMessageVolume (some mdHalf)).estimatedMonthlyMessages ≠
      jsRound (jsMul (estimateMessageVolume (some mdHalf)).estimatedDailyMessages 30) := by
  have hflow : volAfterFlow mdHalf =
      (JSNum.num (1 / 2), Confidence.high, "Flow-level message metrics") := by
    have ht : flowTotal [({ messageCount := some 15 } : FlowMetric)] = 15 := by
      norm_num [flowTotal]
    have hc : flowsWithData [({ messageCount := some 15 } : FlowMetric)] = 1 := by
      norm_num [flowsWithData]
    simp only [volAfterFlow, mdHalf, ht, hc]
    norm_num [jsDiv]
  have hne : (JSNum.num (1 / 2) : JSNum) ≠ JSNum.num 0 := by
    simp only [ne_eq, JSNum.num.injEq]
    norm_num
  have hraw : rawVolume mdHalf =
      (JSNum.num (1 / 2), Confidence.high, "Flow-level message metrics") := by
    rw [rawVolume, hflow, volAfterApp_of_ne_zero _ _ hne, volAfterCpu_of_ne_zero _ _ hne]
  have hd : (estimateMessageVolume (some mdHalf)).estimatedDailyMessages = JSNum.num 1 := by
    simp only [estimateMessageVolume, hraw, jsRound, jsRoundQ]
    norm_num
  have hm : (estimateMessageVolume (some mdHalf)).estimatedMonthlyMessages = JSNum.num 15 := by
    simp only [estimateMessageVolume, hraw, jsMul, jsRound, jsRoundQ]
    norm_num
  refine ⟨hd, hm, ?_⟩
  rw [hd, hm]
  simp only [jsMul, jsRound, jsRoundQ, ne_eq, JSNum.num.injEq]
  norm_num

/-- C1 amended: the returned monthly value is `round(d · 30)` and the
returned daily value is `round(d)`, where `d` is the unrounded daily
estimate carried by the local variable just before the final rounding; the
relation `monthly = round(returnedDaily · 30)` between the two rounded
fields holds only when `d` is already an integer. -/
theorem monthly_rounds_unrounded_daily (omd : Option MonitoringData) :
    (estimateMessageVolume omd).estimatedMonthlyMessages =
      jsRound (jsMul (rawDailyOf omd) 30) ∧
    (estimateMessageVolume omd).estimatedDailyMessages = jsRound (rawDailyOf omd) := by
  cases omd with
  | none =>
    constructor
    · simp only [estimateMessageVolume, rawDailyOf, jsMul, jsRound, jsRoundQ, JSNum.num.injEq]
      norm_num
    · simp only [estimateMessageVolume, rawDailyOf, jsRound, jsRoundQ, JSNum.num.injEq]
      norm_num
  | some md => exact ⟨rfl, rfl⟩

/-- C2: `estimateMessageVolume` coincides with the three-tier fallback
procedure exactly as the claim words it, on every input. -/
theorem estimateMessageVolume_eq_tiered (omd : Option MonitoringData) :
    estimateMessageVolume omd = messageVolumeClaimed omd := by
  cases omd with
  | none => rfl
  | some md =>
    rcases md with ⟨fm, mc, ca, pd⟩
    cases fm with
    | none => rfl
    | some l =>
      by_cases h : 0 < flowsWithData l
      · simp only [estimateMessageVolume, messageVolumeClaimed, rawVolume, volAfterFlow,
          volAfterApp, volAfterCpu, if_pos h, Option.getD_some]
      · simp only [estimateMessageVolume, messageVolumeClaimed, rawVolume, volAfterFlow,
          volAfterApp, volAfterCpu, if_neg h, Option.getD_none]

/-- C3: the metadata estimator chooses its base from the artifact file name
when present (the domain is then ignored entirely), else from the domain,
by lower-cased substring match: the EAPI/experience patterns give base 5,
PAPI/process 7, SAPI/system 3, otherwise 2; at most one integration bonus
applies, by first match (Salesforce/sfdc +2, onbase/database +1, splunk +1);
in particular, with no worker bonuses, file name
`customer-eapi-salesforce-v1.jar` yields 7 and domain `order-papi-database`
with one worker of weight 0 yields 8, both with confidence `low`. -/
theorem estimateBasedOnAppDetails_patterns :
    (∀ (fn : List Char) (dm : Option (List Char)) (w : Option WorkersInfo),
      estimateBasedOnAppDetails (some ⟨some fn, dm, w⟩) =
        estimateBasedOnAppDetails (some ⟨some fn, Option.none, w⟩)) ∧
    (∀ s : List Char,
      (hasSub s ("eapi".toList) || hasSub s ("experience-api".toList)) = true →
      fileBase s = (5, "EAPI filename pattern")) ∧
    (∀ s : List Char,
      (hasSub s ("eapi".toList) || hasSub s ("experience-api".toList)) = false →
      (hasSub s ("papi".toList) || hasSub s ("process-api".toList)) = true →
      fileBase s = (7, "PAPI filename pattern")) ∧
    (∀ s : List Char,
      (hasSub s ("eapi".toList) || hasSub s ("experience-api".toList)) = false →
      (hasSub s ("papi".toList) || hasSub s ("process-api".toList)) = false →
      (hasSub s ("sapi".toList) || hasSub s ("system-api".toList)) = true →
      fileBase s = (3, "SAPI filename pattern")) ∧
    (∀ s : List Char,
      (hasSub s ("eapi".toList) || hasSub s ("experience-api".toList)) = false →
      (hasSub s ("papi".toList) || hasSub s ("process-api".toList)) = false →
      (hasSub s ("sapi".toList) || hasSub s ("system-api".toList)) = false →
      fileBase s = (2, "Application metadata")) ∧
    (∀ s : List Char,
      (hasSub s ("eapi".toList) || hasSub s ("experience".toList)) = true →
      domainBase s = (5, "EAPI domain pattern")) ∧
    (∀ s : List Char,
      (hasSub s ("eapi".toList) || hasSub s ("experience".toList)) = false →
      (hasSub s ("papi".toList) || hasSub s ("process".toList)) = true →
      domainBase s = (7, "PAPI domain pattern")) ∧
    (∀ s : List Char,
      (hasSub s ("eapi".toList) || hasSub s ("experience".toList)) = false →
      (hasSub s ("papi".toList) || hasSub s ("process".toList)) = false →
      (hasSub s ("sapi".toList) || hasSub s ("system".toList)) = true →
      domainBase s = (3, "SAPI domain pattern")) ∧
    (∀ s : List Char,
      (hasSub s ("eapi".toList) || hasSub s ("experience".toList)) = false →
      (hasSub s ("papi".toList) || hasSub s ("process".toList)) = false →
      (hasSub s ("sapi".toList) || hasSub s ("system".toList)) = false →
      domainBase s = (2, "Application metadata")) ∧
    (∀ (s : List Char) (acc : ℤ × String),
      (hasSub s ("salesforce".toList) || hasSub s ("sfdc".toList)) = true →
      addIntegrationPattern s acc = (acc.1 + 2, acc.2 ++ " + Salesforce pattern")) ∧
    (∀ (s : List Char) (acc : ℤ × String),
      (hasSub s ("salesforce".toList) || hasSub s ("sfdc".toList)) = false →
      (hasSub s ("onbase".toList) || hasSub s ("database".toList)) = true →
      addIntegrationPattern s acc = (acc.1 + 1, acc.2 ++ " + Database pattern")) ∧
    (∀ (s : List Char) (acc : ℤ × String),
      (hasSub s ("salesforce".toList) || hasSub s ("sfdc".toList)) = false →
      (hasSub s ("onbase".toList) || hasSub s ("database".toList)) = false →
      hasSub s ("splunk".toList) = true →
      addIntegrationPattern s acc = (acc.1 + 1, acc.2 ++ " + Splunk pattern")) ∧
    (∀ (s : List Char) (acc : ℤ × String),
      (hasSub s ("salesforce".toList) || hasSub s ("sfdc".toList)) = false →
      (hasSub s ("onbase".toList) || hasSub s ("database".toList)) = false →
      hasSub s ("splunk".toList) = false →
      addIntegrationPattern s acc = acc) ∧
    (estimateBasedOnAppDetails
        (some ⟨some ("customer-eapi-salesforce-v1.jar".toList), Option.none, Option.none⟩) =
      ⟨7, Confidence.low, "EAPI filename pattern + Salesforce pattern", Option.none⟩) ∧
    (estimateBasedOnAppDetails
        (some ⟨Option.none, some ("order-papi-database".toList), some ⟨1, some 0⟩⟩) =
      ⟨8, Confidence.low, "PAPI domain pattern + Database pattern", Option.none⟩) := by
  refine ⟨?_, ?_, ?_, ?_, ?_, ?_, ?_, ?_, ?_, ?_, ?_, ?_, ?_, ?_, ?_⟩
  · intro fn dm w
    rfl
  · intro s h
    unfold fileBase
    rw [if_pos h]
  · intro s h1 h2
    unfold fileBase
    rw [if_neg (ne_true_of_eq_false h1), if_pos h2]
  · intro s h1 h2 h3
    unfold fileBase
    rw [if_neg (ne_true_of_eq_false h1), if_neg (ne_true_of_eq_false h2), if_pos h3]
  · intro s h1 h2 h3
    unfold fileBase
    rw [if_neg (ne_true_of_eq_false h1), if_neg (ne_true_of_eq_false h2),
      if_neg (ne_true_of_eq_false h3)]
  · intro s h
    unfold domainBase
    rw [if_pos h]
  · intro s h1 h2
    unfold domainBase
    rw [if_neg (ne_true_of_eq_false h1), if_pos h2]
  · intro s h1 h2 h3
    unfold domainBase
    rw [if_neg (ne_true_of_eq_false h1), if_neg (ne_true_of_eq_false h2), if_pos h3]
  · intro s h1 h2 h3
    unfold domainBase
    rw [if_neg (ne_true_of_eq_false h1), if_neg (ne_true_of_eq_false h2),
      if_neg (ne_true_of_eq_false h3)]
  · intro s acc h
    unfold addIntegrationPattern
    rw [if_pos h]
  · intro s acc h1 h2
    unfold addIntegrationPattern
    rw [if_neg (ne_true_of_eq_false h1), if_pos h2]
  · intro s acc h1 h2 h3
    unfold addIntegrationPattern
    rw [if_neg (ne_true_of_eq_false h1), if_neg (ne_true_of_eq_false h2), if_pos h3]
  · intro s acc h1 h2 h3
    unfold addIntegrationPattern
    rw [if_neg (ne_true_of_eq_false h1), if_neg (ne_true_of_eq_false h2),
      if_neg (ne_true_of_eq_false h3)]
  · decide
  · have hbase :
        addIntegrationPattern (toLowerCase ("order-papi-database".toList))
          (domainBase (toLowerCase ("order-papi-database".toList))) =
          (8, "PAPI domain pattern + Database pattern") := by decide
    simp only [estimateBasedOnAppDetails, hbase, workerAdjust]
    norm_num [jsMax, jsMin]

/-- Witness for C3: the pattern rules evaluated on concrete names. -/
theorem estimateBasedOnAppDetails_patterns_check :
    fileBase ("a-eapi-v1.jar".toList) = (5, "EAPI filename pattern") ∧
    domainBase ("order-papi-database".toList) = (7, "PAPI domain pattern") ∧
    addIntegrationPattern ("x-sfdc-database".toList) (5, "EAPI filename pattern") =
      (7, "EAPI filename pattern + Salesforce pattern") ∧
    addIntegrationPattern ("y-database".toList) (7, "PAPI domain pattern") =
      (8, "PAPI domain pattern + Database pattern") :=
  ⟨estimateBasedOnAppDetails_patterns.2.1 ("a-eapi-v1.jar".toList) (by decide),
   estimateBasedOnAppDetails_patterns.2.2.2.2.2.2.1 ("order-papi-database".toList)
     (by decide) (by decide),
   estimateBasedOnAppDetails_patterns.2.2.2.2.2.2.2.2.2.1 ("x-sfdc-database".toList)
     (5, "EAPI filename pattern") (by decide),
   estimateBasedOnAppDetails_patterns.2.2.2.2.2.2.2.2.2.2.1 ("y-database".toList)
     (7, "PAPI domain pattern") (by decide) (by decide)⟩

/-- Folding the report's per-application step over a list is the projection
of folding the summary step, provided the starting triple agrees with the
starting summary except that the application count has been pre-incremented
by the list length (as the report does at the environment level). -/
theorem app_fold_bridge (l : List AppRecord) :
    ∀ (s : SummaryCounters) (t : ℕ × ℤ × JSNum),
      t.1 = s.totalApplications + l.length →
      t.2.1 = s.totalEstimatedFlows →
      t.2.2 = s.totalEstimatedMonthlyMessages →
      l.foldl reportAppStep t = summaryTriple (l.foldl summaryStep s) := by
  induction l with
  | nil =>
    intro s t h1 h2 h3
    rcases t with ⟨ta, tf, tm⟩
    simp only [List.foldl_nil, summaryTriple]
    simp only [List.length_nil, Nat.add_zero] at h1
    simp only at h2 h3
    rw [h1, h2, h3]
  | cons a l ih =>
    intro s t h1 h2 h3
    simp only [List.foldl_cons]
    apply ih (summaryStep s a)
    · simp only [reportAppStep, summaryStep, h1, List.length_cons]
      omega
    · simp only [reportAppStep, summaryStep, h2]
    · simp only [reportAppStep, summaryStep, h3]

/-- Environment-level version of the bridge. -/
theorem env_fold_bridge (envs : List EnvRecord) :
    ∀ (s : SummaryCounters) (t : ℕ × ℤ × JSNum), t = summaryTriple s →
      envs.foldl reportEnvStep t = summaryTriple (envs.foldl envSummaryFold s) := by
  induction envs with
  | nil =>
    intro s t h
    simpa using h
  | cons e es ih =>
    intro s t h
    simp only [List.foldl_cons]
    apply ih (envSummaryFold s e)
    rw [reportEnvStep, envSummaryFold]
    apply app_fold_bridge
    · simp [h, summaryTriple]
    · simp [h, summaryTriple]
    · simp [h, summaryTriple]

/-- Business-group-level version of the bridge. -/
theorem group_fold_bridge (groups : List GroupRecord) :
    ∀ (s : SummaryCounters) (t : ℕ × ℤ × JSNum), t = summaryTriple s →
      groups.foldl reportGroupStep t = summaryTriple (groups.foldl groupSummaryFold s) := by
  induction groups with
  | nil =>
    intro s t h
    simpa using h
  | cons g gs ih =>
    intro s t h
    simp only [List.foldl_cons]
    apply ih (groupSummaryFold s g)
    rw [reportGroupStep, groupSummaryFold]
    exact env_fold_bridge g.environments s t h

/-- C7: for every inventory built by the run, the organization summary
report's totals — recomputed by re-traversing the inventory tree — equal the
incrementally maintained summary counters (total applications, total
estimated flows, total estimated monthly messages). -/
theorem summary_matches_recomputation (groups : List GroupRecord) :
    orgTotals groups = summaryTriple (runSummary groups) := by
  rw [orgTotals, runSummary]
  exact group_fold_bridge groups ⟨0, 0, JSNum.num 0⟩ (0, 0, JSNum.num 0) rfl

/-- All numeric metric values carried by a monitoring payload are
non-negative (true of real monitoring data; not enforced by the code). -/
def nonnegData (md : MonitoringData) : Bool :=
  (match md.flowMetrics with
   | some l =>
     l.all fun f =>
       match f.messageCount with
       | some c => decide (0 ≤ c)
       | Option.none => true
   | Option.none => true) &&
  (match md.messageCount with
   | some c => decide (0 ≤ c)
   | Option.none => true) &&
  (match md.cpuAverage with
   | some a => decide (0 ≤ a)
   | Option.none => true)

/-- The payload carries flow-level or application-level message data: the
flow-metrics array is present with at least one numeric count, or an
application-level numeric count exists. -/
def messageDataPresent (md : MonitoringData) : Bool :=
  (match md.flowMetrics with
   | some l => decide (0 < flowsWithData l)
   | Option.none => false) || md.messageCount.isSome

/-- The flow-metrics accumulation stays non-negative when every numeric
count is non-negative. -/
theorem flowTotal_fold_nonneg (l : List FlowMetric) :
    ∀ t : ℚ,
      (l.all fun f =>
        match f.messageCount with
        | some c => decide (0 ≤ c)
        | Option.none => true) = true →
      0 ≤ t →
      0 ≤ l.foldl
        (fun t f => match f.messageCount with | some c => t + c | Option.none => t) t := by
  induction l with
  | nil =>
    intro t _ ht
    simpa using ht
  | cons f l ih =>
    intro t hall ht
    rw [List.all_cons, Bool.and_eq_true] at hall
    simp only [List.foldl_cons]
    cases hm : f.messageCount with
    | none =>
      apply ih t hall.2
      exact ht
    | some c =>
      apply ih _ hall.2
      have hc : 0 ≤ c := by
        have := hall.1
        rw [hm] at this
        exact of_decide_eq_true this
      exact add_nonneg ht hc

/-- The summed `totalMessages` is non-negative when every numeric count is. -/
theorem flowTotal_nonneg (l : List FlowMetric)
    (h : (l.all fun f =>
      match f.messageCount with
      | some c => decide (0 ≤ c)
      | Option.none => true) = true) : 0 ≤ flowTotal l :=
  flowTotal_fold_nonneg l 0 h le_rfl

/-- Division by a non-zero divisor is the plain rational division. -/
theorem jsDiv_of_ne_zero (a b : ℚ) (h : b ≠ 0) : jsDiv a b = JSNum.num (a / b) := by
  unfold jsDiv
  exact if_neg h

/-- The flow tier on a payload whose flow-metrics array is absent. -/
theorem volAfterFlow_of_none (md : MonitoringData) (h : md.flowMetrics = Option.none) :
    volAfterFlow md = (JSNum.num 0, Confidence.none, "No message data available") := by
  unfold volAfterFlow
  rw [h]

/-- The flow tier when the array is present and at least one flow carries a
numeric count. -/
theorem volAfterFlow_of_pos (md : MonitoringData) (l : List FlowMetric)
    (h : md.flowMetrics = some l) (hw : 0 < flowsWithData l) :
    volAfterFlow md =
      (jsDiv (flowTotal l) md.periodDays, Confidence.high, "Flow-level message metrics") := by
  unfold volAfterFlow
  rw [h]
  exact if_pos hw

/-- The flow tier when the array is present but no flow carries a numeric
count. -/
theorem volAfterFlow_of_zero (md : MonitoringData) (l : List FlowMetric)
    (h : md.flowMetrics = some l) (hw : ¬ 0 < flowsWithData l) :
    volAfterFlow md = (JSNum.num 0, Confidence.none, "No message data available") := by
  unfold volAfterFlow
  rw [h]
  exact if_neg hw

/-- With a positive analysis period, the flow tier leaves a finite
non-negative daily estimate. -/
theorem volAfterFlow_nonneg (md : MonitoringData) (hd : 0 < md.periodDays)
    (hfl : (match md.flowMetrics with
      | some l =>
        l.all fun f =>
          match f.messageCount with
          | some c => decide (0 ≤ c)
          | Option.none => true
      | Option.none => true) = true) :
    ∃ q : ℚ, (volAfterFlow md).1 = JSNum.num q ∧ 0 ≤ q := by
  cases hm : md.flowMetrics with
  | none =>
    rw [volAfterFlow_of_none md hm]
    exact ⟨0, rfl, le_rfl⟩
  | some l =>
    rw [hm] at hfl
    by_cases hw : 0 < flowsWithData l
    · rw [volAfterFlow_of_pos md l hm hw]
      refine ⟨flowTotal l / md.periodDays, ?_, ?_⟩
      · exact jsDiv_of_ne_zero _ _ (ne_of_gt hd)
      · exact div_nonneg (flowTotal_nonneg l hfl) hd.le
    · rw [volAfterFlow_of_zero md l hm hw]
      exact ⟨0, rfl, le_rfl⟩

/-- With a positive period, the application tier preserves finite
non-negative daily estimates. -/
theorem volAfterApp_nonneg (md : MonitoringData) (s : JSNum × Confidence × String)
    (hd : 0 < md.periodDays)
    (hmc : (match md.messageCount with
      | some c => decide (0 ≤ c)
      | Option.none => true) = true)
    (hs : ∃ q : ℚ, s.1 = JSNum.num q ∧ 0 ≤ q) :
    ∃ q : ℚ, (volAfterApp md s).1 = JSNum.num q ∧ 0 ≤ q := by
  unfold volAfterApp
  split
  · cases hm : md.messageCount with
    | none => exact hs
    | some c =>
      rw [hm] at hmc
      refine ⟨c / md.periodDays, ?_, ?_⟩
      · exact jsDiv_of_ne_zero c _ (ne_of_gt hd)
      · exact div_nonneg (of_decide_eq_true hmc) hd.le
  · exact hs

/-- The CPU tier preserves finite non-negative daily estimates. -/
theorem volAfterCpu_nonneg (md : MonitoringData) (s : JSNum × Confidence × String)
    (hca : (match md.cpuAverage with
      | some a => decide (0 ≤ a)
      | Option.none => true) = true)
    (hs : ∃ q : ℚ, s.1 = JSNum.num q ∧ 0 ≤ q) :
    ∃ q : ℚ, (volAfterCpu md s).1 = JSNum.num q ∧ 0 ≤ q := by
  unfold volAfterCpu
  split
  · cases hm : md.cpuAverage with
    | none => exact hs
    | some a =>
      rw [hm] at hca
      exact ⟨a * 100, rfl, mul_nonneg (of_decide_eq_true hca) (by norm_num)⟩
  · exact hs

/-- With a positive period and non-negative metrics, the unrounded daily
estimate is a finite non-negative rational. -/
theorem rawVolume_nonneg (md : MonitoringData) (hd : 0 < md.periodDays)
    (hn : nonnegData md = true) :
    ∃ q : ℚ, (rawVolume md).1 = JSNum.num q ∧ 0 ≤ q := by
  rw [nonnegData, Bool.and_eq_true, Bool.and_eq_true] at hn
  exact volAfterCpu_nonneg md _ hn.2
    (volAfterApp_nonneg md _ hd hn.1.2 (volAfterFlow_nonneg md hd hn.1.1))

/-- Rounding a finite non-negative value yields a finite non-negative
integer. -/
theorem round_finNonnegInt (q : ℚ) (h : 0 ≤ q) :
    isFinNonnegInt (jsRound (JSNum.num q)) = true := by
  simp only [jsRound, isFinNonnegInt, jsRoundQ, Bool.and_eq_true, decide_eq_true_eq]
  constructor
  · have : (0 : ℤ) ≤ ⌊q + 1 / 2⌋ := Int.floor_nonneg.mpr (by linarith)
    exact_mod_cast this
  · exact Rat.den_intCast _

/-- Division of a finite value by zero never yields a finite value. -/
theorem jsDiv_by_zero_not_finite (a : ℚ) : (jsDiv a 0).isFinite = false := by
  unfold jsDiv
  rw [if_pos rfl]
  split_ifs <;> rfl

/-- A non-finite value is distinct from every finite one. -/
theorem ne_num_of_not_finite (x : JSNum) (h : x.isFinite = false) (q : ℚ) :
    x ≠ JSNum.num q := by
  cases x <;> simp_all [JSNum.isFinite]

/-- Rounding cannot recover finiteness. -/
theorem jsRound_not_finite (x : JSNum) (h : x.isFinite = false) :
    (jsRound x).isFinite = false := by
  cases x <;> simp_all [jsRound, JSNum.isFinite]

/-- Multiplication by 30 cannot recover finiteness. -/
theorem jsMul30_not_finite (x : JSNum) (h : x.isFinite = false) :
    (jsMul x 30).isFinite = false := by
  cases x with
  | num q => simp [JSNum.isFinite] at h
  | inf =>
    rw [jsMul, if_pos (by norm_num)]
    rfl
  | ninf =>
    rw [jsMul, if_pos (by norm_num)]
    rfl
  | nan => rfl

/-- With a zero-day analysis period and message data present, the unrounded
daily estimate is non-finite (the division is by zero). -/
theorem rawVolume_not_finite (md : MonitoringData) (h0 : md.periodDays = 0)
    (hp : messageDataPresent md = true) : (rawVolume md).1.isFinite = false := by
  rw [messageDataPresent, Bool.or_eq_true] at hp
  have happ0 : ∀ c : ℚ, md.messageCount = some c →
      (volAfterCpu md (volAfterApp md
        (JSNum.num 0, Confidence.none, "No message data available"))).1.isFinite = false := by
    intro c hmc
    have hdivnf : (jsDiv c md.periodDays).isFinite = false := by
      rw [h0]
      exact jsDiv_by_zero_not_finite c
    have h2 : volAfterApp md (JSNum.num 0, Confidence.none, "No message data available") =
        (jsDiv c md.periodDays, Confidence.medium, "Application-level message metrics") := by
      unfold volAfterApp
      rw [if_pos rfl, hmc]
    rw [h2, volAfterCpu_of_ne_zero _ _ (ne_num_of_not_finite _ hdivnf 0)]
    exact hdivnf
  rw [rawVolume]
  cases hfm : md.flowMetrics with
  | none =>
    rcases hp with hp | hp
    · rw [hfm] at hp
      simp at hp
    · rcases Option.isSome_iff_exists.mp hp with ⟨c, hmc⟩
      rw [volAfterFlow_of_none md hfm]
      exact happ0 c hmc
  | some l =>
    by_cases hw : 0 < flowsWithData l
    · have hdivnf : (jsDiv (flowTotal l) md.periodDays).isFinite = false := by
        rw [h0]
        exact jsDiv_by_zero_not_finite _
      rw [volAfterFlow_of_pos md l hfm hw,
        volAfterApp_of_ne_zero _ _ (ne_num_of_not_finite _ hdivnf 0),
        volAfterCpu_of_ne_zero _ _ (ne_num_of_not_finite _ hdivnf 0)]
      exact hdivnf
    · rcases hp with hp | hp
      · rw [hfm] at hp
        exact absurd (of_decide_eq_true hp) hw
      · rcases Option.isSome_iff_exists.mp hp with ⟨c, hmc⟩
        rw [volAfterFlow_of_zero md l hfm hw]
        exact happ0 c hmc

/-- Counterexample to C10 as stated: the payload `mdNeg` carries a single
flow reporting `-30` messages over a positive 30-day period, yet the
returned daily value is `-1`, which is not a non-negative integer — the
positivity of `period.days` alone does not make the results non-negative. -/
def mdNeg : MonitoringData :=
  { flowMetrics := some [{ messageCount := some (-30) }]
    messageCount := Option.none
    cpuAverage := Option.none
    periodDays := 30 }

/-- C10 counterexample theorem: `period.days` is positive on `mdNeg`, yet
the returned daily value is the negative integer `-1`. -/
theorem negative_count_gives_negative_daily :
    0 < mdNeg.periodDays ∧
    (estimateMessageVolume (some mdNeg)).estimatedDailyMessages = JSNum.num (-1) ∧
    isFinNonnegInt (estimateMessageVolume (some mdNeg)).estimatedDailyMessages = false := by
  have ht : flowTotal [({ messageCount := some (-30) } : FlowMetric)] = -30 := by
    norm_num [flowTotal]
  have hc : flowsWithData [({ messageCount := some (-30) } : FlowMetric)] = 1 := by
    norm_num [flowsWithData]
  have hflow : volAfterFlow mdNeg =
      (JSNum.num (-1), Confidence.high, "Flow-level message metrics") := by
    simp only [volAfterFlow, mdNeg, ht, hc]
    norm_num [jsDiv]
  have hne : (JSNum.num (-1) : JSNum) ≠ JSNum.num 0 := by
    simp only [ne_eq, JSNum.num.injEq]
    norm_num
  have hraw : rawVolume mdNeg =
      (JSNum.num (-1), Confidence.high, "Flow-level message metrics") := by
    rw [rawVolume, hflow, volAfterApp_of_ne_zero _ _ hne, volAfterCpu_of_ne_zero _ _ hne]
  have hd : (estimateMessageVolume (some mdNeg)).estimatedDailyMessages = JSNum.num (-1) := by
    simp only [estimateMessageVolume, hraw, jsRound, jsRoundQ, JSNum.num.injEq]
    norm_num
  refine ⟨by norm_num [mdNeg], hd, ?_⟩
  rw [hd]
  simp only [isFinNonnegInt, Bool.and_eq_false_iff, decide_eq_false_iff_not, not_le]
  left
  norm_num

/-- C10 amended: for every monitoring payload whose `period.days` is
positive *and whose numeric metric values are non-negative*, the returned
daily and monthly values are finite non-negative integers; and the
positive-period precondition is necessary — with `period.days = 0` (e.g.
`ANALYZE_DAYS=0`) and flow- or application-level message data present, the
division is by zero and neither returned value is finite. -/
theorem message_volume_finiteness (md : MonitoringData) :
    (0 < md.periodDays → nonnegData md = true →
      isFinNonnegInt (estimateMessageVolume (some md)).estimatedDailyMessages = true ∧
        isFinNonnegInt (estimateMessageVolume (some md)).estimatedMonthlyMessages = true) ∧
    (md.periodDays = 0 → messageDataPresent md = true →
      (estimateMessageVolume (some md)).estimatedDailyMessages.isFinite = false ∧
        (estimateMessageVolume (some md)).estimatedMonthlyMessages.isFinite = false) := by
  constructor
  · intro hd hn
    obtain ⟨q, hq, hq0⟩ := rawVolume_nonneg md hd hn
    constructor
    · show isFinNonnegInt (jsRound (rawVolume md).1) = true
      rw [hq]
      exact round_finNonnegInt q hq0
    · show isFinNonnegInt (jsRound (jsMul (rawVolume md).1 30)) = true
      rw [hq]
      show isFinNonnegInt (jsRound (JSNum.num (q * 30))) = true
      exact round_finNonnegInt _ (mul_nonneg hq0 (by norm_num))
  · intro h0 hp
    have hnf := rawVolume_not_finite md h0 hp
    constructor
    · show (jsRound (rawVolume md).1).isFinite = false
      exact jsRound_not_finite _ hnf
    · show (jsRound (jsMul (rawVolume md).1 30)).isFinite = false
      exact jsRound_not_finite _ (jsMul30_not_finite _ hnf)

/-- Monitoring payload with 3000 flow-level messages over 30 days. -/
def mdA : MonitoringData :=
  { flowMetrics := some [{ messageCount := some 3000 }]
    messageCount := Option.none
    cpuAverage := Option.none
    periodDays := 30 }

/-- Monitoring payload with flow data but a zero-day analysis period. -/
def mdB : MonitoringData :=
  { flowMetrics := some [{ messageCount := some 5 }]
    messageCount := Option.none
    cpuAverage := Option.none
    periodDays := 0 }

/-- Witness for the amended C10: both halves applied at concrete payloads. -/
theorem message_volume_finiteness_check :
    (isFinNonnegInt (estimateMessageVolume (some mdA)).estimatedDailyMessages = true ∧
      isFinNonnegInt (estimateMessageVolume (some mdA)).estimatedMonthlyMessages = true) ∧
    ((estimateMessageVolume (some mdB)).estimatedDailyMessages.isFinite = false ∧
      (estimateMessageVolume (some mdB)).estimatedMonthlyMessages.isFinite = false) :=
  ⟨(message_volume_finiteness mdA).1 (by norm_num [mdA])
      (by simp only [nonnegData, mdA, List.all_cons, List.all_nil]; norm_num),
   (message_volume_finiteness mdB).2 rfl
      (by simp only [messageDataPresent, mdB, flowsWithData, List.foldl_cons, List.foldl_nil]
          norm_num)⟩
